import Mathlib

/-!
# Soonish — verification of the reminder/notification core

A shallow embedding of the Soonish event-reminder service
(`src/activities/schedules.py`, `src/activities/notifications.py`,
`src/activities/notification_builder.py`, `src/workflows/event.py`,
`src/api/routes/subscriptions.py`, `src/db/models.py`,
`src/db/repositories.py`), together with theorems about the embedded
definitions.

Modelling conventions:
* wall-clock instants and second offsets are `Int` (the Python code carries
  ISO-8601 strings and `datetime` values; only their ordering and the
  subtraction `start_date - offset` matter here);
* the Temporal schedule registry is a list of `(schedule id, trigger instant)`
  pairs, keyed by the id string exactly as built by the code;
* the symmetric Fernet cipher of `src/db/encryption.py` is an external
  library; it is modelled as an abstract `Cipher` record whose only assumed
  law is the decrypt-encrypt round trip;
* database rows are plain structures, repository queries are list
  filters mirroring the SQLAlchemy queries of `src/db/repositories.py`;
* external delivery (Apprise `notify`) is nondeterministic, so dispatch
  functions take boolean oracles giving each send's outcome, and they return
  the list of attempted sends alongside the report dictionaries.
-/

set_option linter.unusedVariables false

namespace Soonish

/-- The symmetric cipher of `src/db/encryption.py` (`encrypt_field` /
`decrypt_field`).  Fernet is an external library; only the round-trip law is
assumed. -/
structure Cipher where
  enc : String → String
  dec : String → String
  roundtrip : ∀ s, dec (enc s) = s

/-- A trivial cipher instance, used to evaluate the development on concrete
inputs. -/
def idCipher : Cipher := ⟨id, id, fun _ => rfl⟩

/-! ## Data model (`src/db/models.py`) -/

/-- `models.User` (the fields the core reads). -/
structure User where
  id : Nat
  email : String
  name : String
  is_verified : Bool
deriving DecidableEq, Repr

/-- `models.Event` (the fields the subscription route reads). -/
structure Event where
  id : Nat
  is_public : Bool
deriving DecidableEq, Repr

/-- `models.Integration`: `apprise_url_encrypted` is ciphertext at rest;
the `apprise_url` property decrypts it on read and encrypts on write. -/
structure Integration where
  id : Nat
  user_id : Nat
  name : String
  apprise_url_encrypted : String
  tag : String
  is_active : Bool
deriving DecidableEq, Repr

/-- `models.Subscription`. -/
structure Subscription where
  id : Nat
  event_id : Nat
  user_id : Nat
deriving DecidableEq, Repr

/-- `models.SubscriptionSelector`: exactly one of `integration_id` / `tag`
is meant to be set. -/
structure SubscriptionSelector where
  subscription_id : Nat
  integration_id : Option Nat
  tag : Option String
deriving DecidableEq, Repr

/-- `models.SubscriptionReminder`. -/
structure SubscriptionReminder where
  subscription_id : Nat
  offset_seconds : Int
deriving DecidableEq, Repr

/-- The relational store (`C2`): one list per table. -/
structure DB where
  users : List User
  events : List Event
  integrations : List Integration
  subscriptions : List Subscription
  selectors : List SubscriptionSelector
  reminders : List SubscriptionReminder
deriving Repr

/-- Python `str.lower()` on a tag string (ASCII tags), applied character by
character. -/
def pyLower (s : String) : String :=
  ⟨s.data.map (fun ch =>
    if ch.isUpper then Char.ofNat (ch.toNat + 32) else ch)⟩

/-- `models.py` `lowercase_tag` hook: tags are lowercased on insert when
truthy (non-empty). -/
def lowercaseTag (t : String) : String := if t.isEmpty then t else pyLower t

/-! ## Repository queries (`src/db/repositories.py`) -/

/-- `UserRepository.get_by_id`. -/
def DB.userById (db : DB) (user_id : Nat) : Option User :=
  db.users.find? (fun u => u.id == user_id)

/-- `UserRepository.get_by_email`. -/
def DB.userByEmail (db : DB) (email : String) : Option User :=
  db.users.find? (fun u => u.email == email)

/-- `EventRepository.get_by_id`. -/
def DB.eventById (db : DB) (event_id : Nat) : Option Event :=
  db.events.find? (fun e => e.id == event_id)

/-- `IntegrationRepository.get_by_id`. -/
def DB.intById (db : DB) (integration_id : Nat) : Option Integration :=
  db.integrations.find? (fun i => i.id == integration_id)

/-- `IntegrationRepository.get_by_user` with the default `active_only=True`. -/
def DB.intByUserActive (db : DB) (user_id : Nat) : List Integration :=
  db.integrations.filter (fun i => i.user_id == user_id && i.is_active)

/-- `SubscriptionRepository.get_by_id`. -/
def DB.subById (db : DB) (subscription_id : Nat) : Option Subscription :=
  db.subscriptions.find? (fun s => s.id == subscription_id)

/-- `SubscriptionRepository.get_by_event`. -/
def DB.subsByEvent (db : DB) (event_id : Nat) : List Subscription :=
  db.subscriptions.filter (fun s => s.event_id == event_id)

/-- `SubscriptionRepository.get_by_event_and_user`. -/
def DB.subByEventAndUser (db : DB) (event_id user_id : Nat) : Option Subscription :=
  db.subscriptions.find? (fun s => s.event_id == event_id && s.user_id == user_id)

/-- The selectors relationship rows of one subscription. -/
def DB.selectorsOf (db : DB) (subscription_id : Nat) : List SubscriptionSelector :=
  db.selectors.filter (fun s => s.subscription_id == subscription_id)

/-- The reminder offsets of one subscription (`Subscription.reminders`). -/
def DB.remindersOf (db : DB) (subscription_id : Nat) : List Int :=
  (db.reminders.filter (fun r => r.subscription_id == subscription_id)).map
    (fun r => r.offset_seconds)

/-! ## Reminder schedule registry (`src/activities/schedules.py`)

The registry models the Temporal schedule store: a list of
`(schedule id, trigger instant)` pairs.  `create_schedule` with an id that is
already present raises an "already exists" error, which the activity catches
and treats as success. -/

/-- The deterministic schedule id
`event-{event_id}-sub-{sub_id}-reminder-{offset_seconds}s`
(schedules.py line 63). -/
def scheduleId (event_id sub_id : Nat) (offset_seconds : Int) : String :=
  "event-" ++ toString event_id ++ "-sub-" ++ toString sub_id ++
    "-reminder-" ++ toString offset_seconds ++ "s"

/-- The id marker `event-{event_id}-` used by `delete_reminder_schedules` to
select the schedules of one event (schedules.py line 140). -/
def eventMarker (event_id : Nat) : String :=
  "event-" ++ toString event_id ++ "-"

/-- One pass of the inner loop of `create_reminder_schedules`
(schedules.py lines 62-106) for a single `offset_seconds`:
compute the id and trigger; skip if the trigger is strictly in the past
(`trigger_time < datetime.now(...)`); otherwise create the schedule, the
"already exists" error from a duplicate id being caught and the id still
appended to `schedules_created`.  The accumulator is
`(registry, schedules_created)`. -/
def createStep (event_id : Nat) (start_date now : Int) (sub_id : Nat)
    (acc : List (String × Int) × List String) (offset_seconds : Int) :
    List (String × Int) × List String :=
  let sid := scheduleId event_id sub_id offset_seconds
  let trigger := start_date - offset_seconds
  if trigger < now then acc
  else if acc.1.any (fun p => p.1 == sid) then (acc.1, acc.2 ++ [sid])
  else (acc.1 ++ [(sid, trigger)], acc.2 ++ [sid])

/-- `create_reminder_schedules(event_id, start_date_iso, subscription_reminders)`
(schedules.py lines 11-111).  The subscription map is a list of
`(subscription_id, offsets)` pairs in dict iteration order; `not
subscription_reminders` and `not offsets` are the Python truthiness guards.
The `isinstance` coercion on lines 58-60 is vacuous here because offsets are
lists by type.  Returns the new registry and `schedules_created`. -/
def create_reminder_schedules (event_id : Nat) (start_date : Int)
    (subscription_reminders : List (Nat × List Int)) (now : Int)
    (registry : List (String × Int)) : List (String × Int) × List String :=
  if subscription_reminders = [] then (registry, [])
  else
    subscription_reminders.foldl
      (fun acc p =>
        if p.2 = [] then acc
        else p.2.foldl (createStep event_id start_date now p.1) acc)
      (registry, [])

/-- `delete_reminder_schedules(event_id)` (schedules.py lines 114-157):
every schedule whose id starts with `event-{event_id}-` is deleted; the
deleted ids are returned. -/
def delete_reminder_schedules (event_id : Nat)
    (registry : List (String × Int)) : List (String × Int) × List String :=
  (registry.filter (fun p => !(p.1.startsWith (eventMarker event_id))),
   (registry.filter (fun p => p.1.startsWith (eventMarker event_id))).map
     (fun p => p.1))

/-- `get_subscription_reminders(event_id)` (schedules.py lines 160-184):
subscriptions of the event that have at least one reminder row, mapped to
their offset lists; a subscription with no reminder rows is absent. -/
def get_subscription_reminders (db : DB) (event_id : Nat) :
    List (Nat × List Int) :=
  (db.subsByEvent event_id).filterMap (fun sub =>
    let offs := db.remindersOf sub.id
    if offs.isEmpty then none else some (sub.id, offs))

/-! ## Notification building (`src/activities/notification_builder.py`) -/

/-- One Apprise server entry: a (decrypted) delivery URL and the optional
tag passed to `apobj.add`. -/
structure Endpoint where
  url : String
  tag : Option String
deriving DecidableEq, Repr

/-- Service SMTP settings (`src/config.py` lines 35-42; all default `""`). -/
structure Settings where
  gmail_user : String
  gmail_app_password : String
  smtp_server_gmail : String
  proton_user : String
  proton_app_password : String
  smtp_server_proton : String
deriving DecidableEq, Repr

namespace NotificationBuilder

/-- The method names the `NotificationBuilder` class body defines
(`notification_builder.py` lines 7-116: `build_for_user`,
`build_for_event_subscribers`, `build_fallback_email` — and no other). -/
def methodNames : List String :=
  ["build_for_user", "build_for_event_subscribers", "build_fallback_email"]

/-- Python attribute lookup on the `NotificationBuilder` class object:
resolves iff the name is among the methods the class body defines, and
raises `AttributeError` otherwise. -/
def getattr (name : String) : Except String (PLift (name ∈ methodNames)) :=
  if h : name ∈ methodNames then .ok ⟨h⟩
  else .error ("type object NotificationBuilder has no attribute " ++ name)

/-- The endpoint resolution performed per subscription inside
`NotificationBuilder.build_for_event_subscribers`
(notification_builder.py lines 48-83): collect the subscription's
integration-id selectors and tag selectors, optionally filter the tags by
`selector_tags` (Python truthiness: `None` or `[]` means no filter), add the
active integrations referenced by id, then — when the tag list is non-empty —
add the user's active integrations whose tag is among the selector tags. -/
def resolveForSubscription (c : Cipher) (db : DB) (sub : Subscription)
    (selector_tags : Option (List String)) : List Endpoint :=
  let sels := db.selectorsOf sub.id
  let integration_ids := sels.filterMap (fun s => s.integration_id)
  let sub_tags0 := sels.filterMap (fun s => s.tag)
  let sub_tags :=
    match selector_tags with
    | some st => if st.isEmpty then sub_tags0
                 else sub_tags0.filter (fun t => st.contains t)
    | none => sub_tags0
  let apobj := integration_ids.foldl
    (fun ap int_id =>
      match db.intById int_id with
      | some integration =>
          if integration.is_active then
            ap ++ [⟨c.dec integration.apprise_url_encrypted, some integration.tag⟩]
          else ap
      | none => ap) []
  if sub_tags.isEmpty then apobj
  else
    (db.intByUserActive sub.user_id).foldl
      (fun ap integration =>
        if integration.is_active && sub_tags.contains integration.tag then
          ap ++ [⟨c.dec integration.apprise_url_encrypted, some integration.tag⟩]
        else ap) apobj

/-- The `{user_id: apprise_instance}` dict insert of
`build_for_event_subscribers` line 83 (`result[subscription.user_id] = apobj`):
replace the value of an existing key in place, else append. -/
def dictInsert {α : Type} (l : List (Nat × α)) (k : Nat) (v : α) :
    List (Nat × α) :=
  if l.any (fun p => p.1 == k) then
    l.map (fun p => if p.1 == k then (k, v) else p)
  else l ++ [(k, v)]

/-- `NotificationBuilder.build_for_event_subscribers(event_id, selector_tags)`
(notification_builder.py lines 31-85): one resolved endpoint list per
subscriber, keyed by `user_id`. -/
def build_for_event_subscribers (c : Cipher) (db : DB) (event_id : Nat)
    (selector_tags : Option (List String)) : List (Nat × List Endpoint) :=
  (db.subsByEvent event_id).foldl
    (fun res sub => dictInsert res sub.user_id
      (resolveForSubscription c db sub selector_tags)) []

/-- `NotificationBuilder.build_fallback_email(email, is_verified)`
(notification_builder.py lines 87-116): a single service-SMTP `mailtos`
endpoint, through the ProtonMail profile for verified users (when
configured), else the Gmail profile (when configured), else nothing.
Settings truthiness is non-emptiness. -/
def build_fallback_email (settings : Settings) (email : String)
    (is_verified : Bool) : List Endpoint :=
  if is_verified && !settings.proton_user.isEmpty then
    [⟨"mailtos://?to=" ++ email ++ "&smtp=" ++ settings.smtp_server_proton ++
        "&user=" ++ settings.proton_user ++ "&pass=" ++
        settings.proton_app_password ++ "&from=Soonish <" ++
        settings.proton_user ++ ">", none⟩]
  else if !settings.gmail_user.isEmpty then
    [⟨"mailtos://?to=" ++ email ++ "&smtp=" ++ settings.smtp_server_gmail ++
        "&user=" ++ settings.gmail_user ++ "&pass=" ++
        settings.gmail_app_password ++ "&from=Soonish <" ++
        settings.gmail_user ++ ">", none⟩]
  else []

end NotificationBuilder

/-! ## Fan-out dispatch (`src/activities/notifications.py`) -/

/-- One attempted Apprise `notify` call, with the delivery outcome. -/
inductive SendAttempt where
  | direct (user_id : Nat) (endpoints : List Endpoint) (ok : Bool)
  | fallbackEmail (user_id : Nat) (endpoints : List Endpoint) (ok : Bool)
deriving DecidableEq, Repr

/-- The dict returned by `send_notification_to_subscription`
(notifications.py lines 100, 110-114, 117-121, 125).  `error` is the
singular `"error"` key the code writes; `errors` is the plural `"errors"`
list key (this function never writes it — it is here so that reports of
either shape can be stated and compared). -/
structure SubDispatchResult where
  success : Nat
  failed : Nat
  channels : Option Nat
  error : Option String
  errors : Option (List String)
deriving DecidableEq, Repr

/-- `send_notification_to_subscription(subscription_id, title, body, level)`
(notifications.py lines 70-125).  The try-block loads the subscription
(returning the not-found report when absent) and then evaluates
`NotificationBuilder.build_for_subscription` — an attribute the class does
not define, so the lookup raises `AttributeError` before any resolution or
send can happen; the enclosing `except Exception` turns the exception into
`{"success": 0, "failed": 1, "error": str(e)}`.  The returned list is the
(necessarily empty) list of attempted sends. -/
def send_notification_to_subscription (db : DB) (subscription_id : Nat)
    (title body level : String) : SubDispatchResult × List SendAttempt :=
  let tryBody : Except String (SubDispatchResult × List SendAttempt) :=
    match db.subById subscription_id with
    | none =>
        .ok ({ success := 0, failed := 1, channels := none,
               error := some "Subscription not found", errors := none }, [])
    | some _subscription =>
        match NotificationBuilder.getattr "build_for_subscription" with
        | .error e => .error e
        | .ok h =>
            -- unreachable: the class defines no such attribute, so the
            -- lookup above always raises before the notify/no-channel
            -- branches of lines 107-121 can run
            absurd h.down (by decide)
  match tryBody with
  | .ok r => r
  | .error e =>
      ({ success := 0, failed := 1, channels := none, error := some e,
         errors := none }, [])

/-- One per-subscriber entry of the `details` list built by
`send_notification_to_subscribers`. -/
structure SubscriberDetail where
  user_id : Nat
  status : String
  channels : Option Nat
  error : Option String
  fallback : Option String
deriving DecidableEq, Repr

/-- The aggregate dict returned by `send_notification_to_subscribers`. -/
structure BroadcastReport where
  total_subscribers : Nat
  success : Nat
  failed : Nat
  details : List SubscriberDetail
  error : Option String
deriving DecidableEq, Repr

/-- Loop state of the per-subscriber loop of
`send_notification_to_subscribers`, plus the trace of attempted sends. -/
structure BroadcastAcc where
  success : Nat
  failed : Nat
  details : List SubscriberDetail
  sends : List SendAttempt
deriving DecidableEq, Repr

/-- The body of the per-subscriber loop of `send_notification_to_subscribers`
(notifications.py lines 158-209) for one `(user_id, apobj)` item: when the
resolved endpoint list is non-empty, notify it (outcome from the
`notifyOk` oracle); otherwise look the user up and — whenever the user row
exists — attempt the fallback email built by
`NotificationBuilder.build_fallback_email` (outcome from `fallbackOk`); a
missing user row contributes nothing. -/
def broadcastStep (db : DB) (settings : Settings)
    (notifyOk fallbackOk : Nat → Bool) (acc : BroadcastAcc)
    (entry : Nat × List Endpoint) : BroadcastAcc :=
  let user_id := entry.1
  let apobj := entry.2
  if apobj.length > 0 then
    if notifyOk user_id then
      { success := acc.success + 1, failed := acc.failed,
        details := acc.details ++
          [⟨user_id, "success", some apobj.length, none, none⟩],
        sends := acc.sends ++ [.direct user_id apobj true] }
    else
      { success := acc.success, failed := acc.failed + 1,
        details := acc.details ++
          [⟨user_id, "failed", none, some "Notification failed", none⟩],
        sends := acc.sends ++ [.direct user_id apobj false] }
  else
    match db.userById user_id with
    | some user =>
        let fb := NotificationBuilder.build_fallback_email settings
          user.email user.is_verified
        if fallbackOk user_id then
          { success := acc.success + 1, failed := acc.failed,
            details := acc.details ++
              [⟨user_id, "success", some 1, none, some "email"⟩],
            sends := acc.sends ++ [.fallbackEmail user_id fb true] }
        else
          { success := acc.success, failed := acc.failed + 1,
            details := acc.details ++
              [⟨user_id, "failed", none, some "Fallback email failed", none⟩],
            sends := acc.sends ++ [.fallbackEmail user_id fb false] }
    | none => acc

/-- `send_notification_to_subscribers(event_id, title, body, level,
selector_tags)` (notifications.py lines 128-226): build the per-subscriber
endpoint map, then run the per-subscriber loop; returns the aggregate report
and the trace of attempted sends. -/
def send_notification_to_subscribers (c : Cipher) (db : DB)
    (settings : Settings) (notifyOk fallbackOk : Nat → Bool) (event_id : Nat)
    (title body level : String) (selector_tags : Option (List String)) :
    BroadcastReport × List SendAttempt :=
  let subscribers :=
    NotificationBuilder.build_for_event_subscribers c db event_id selector_tags
  let acc := subscribers.foldl (broadcastStep db settings notifyOk fallbackOk)
    ⟨0, 0, [], []⟩
  ({ total_subscribers := subscribers.length, success := acc.success,
     failed := acc.failed, details := acc.details, error := none },
   acc.sends)

/-- Whether a send attempt is an email-fallback attempt for user `u`. -/
def isFallbackFor (u : Nat) : SendAttempt → Bool
  | .fallbackEmail user_id _ _ => user_id == u
  | .direct _ _ _ => false

/-- Number of email-fallback attempts for user `u` in a send trace. -/
def fallbackCount (u : Nat) (sends : List SendAttempt) : Nat :=
  (sends.filter (isFallbackFor u)).length

/-! ## Event lifecycle workflow (`src/workflows/event.py`) -/

/-- The in-memory event snapshot dict `self.event_data` (the keys the
handlers read).  `start_date` instants are modelled as `Int` (the Python
dict holds ISO strings; only equality and the arithmetic of
`create_reminder_schedules` matter). -/
structure EventData where
  name : Option String
  start_date : Option Int
  description : Option String
deriving DecidableEq, Repr

/-- Python `self.event_data.update(updated_data)`: keys present in the
update override, absent keys are kept. -/
def EventData.updateWith (old new : EventData) : EventData :=
  { name := new.name <|> old.name,
    start_date := new.start_date <|> old.start_date,
    description := new.description <|> old.description }

/-- Workflow instance state (`EventWorkflow.__init__`). -/
structure WorkflowState where
  event_id : Nat
  event_data : EventData
  is_cancelled : Bool
deriving DecidableEq, Repr

/-- One `workflow.execute_activity` call issued by a signal handler. -/
inductive ActivityCall where
  | getReminders (event_id : Nat)
  | createSchedules (event_id : Nat) (start_date : Int)
      (subscription_reminders : List (Nat × List Int))
  | deleteSchedules (event_id : Nat)
  | broadcast (event_id : Nat) (title body level : String)
deriving DecidableEq, Repr

/-- The broadcast activity as the workflow sees it: the whole Python body of
`send_notification_to_subscribers` is wrapped in `try/except` (notifications.py
lines 145-226), so an exception raised inside it (modelled by the `oracle`
argument) is converted into the lines 220-226 report instead of propagating. -/
def broadcastActivity (oracle : Option String) (c : Cipher) (db : DB)
    (settings : Settings) (notifyOk fallbackOk : Nat → Bool) (event_id : Nat)
    (title body level : String) (selector_tags : Option (List String)) :
    BroadcastReport × List SendAttempt :=
  match oracle with
  | some e =>
      ({ total_subscribers := 0, success := 0, failed := 0, details := [],
         error := some e }, [])
  | none =>
      send_notification_to_subscribers c db settings notifyOk fallbackOk
        event_id title body level selector_tags

/-- Everything `event_updated` produces: the updated workflow state, the
schedule registry after the optional rebuild, the broadcast call that was
issued with its report, the send trace, and the activity-call trace. -/
structure EventUpdatedOutcome where
  state : WorkflowState
  registry : List (String × Int)
  broadcastTitle : String
  broadcastLevel : String
  broadcastReport : BroadcastReport
  sends : List SendAttempt
  trace : List ActivityCall
deriving Repr

/-- Signal handler `EventWorkflow.event_updated(updated_data)`
(event.py lines 138-190): merge the update into the snapshot; when the
update carries a `start_date` different from the old one, delete the event's
schedules, re-fetch all subscription offsets and recreate the schedules
(failures of that block are caught and logged, lines 177-178 — the successful
execution is modelled); then broadcast
`"Event Updated: {updated_data.get('name', 'Event')}"` at level `info`. -/
def EventWorkflow.event_updated (c : Cipher) (db : DB) (settings : Settings)
    (notifyOk fallbackOk : Nat → Bool) (oracle : Option String)
    (st : WorkflowState) (updated_data : EventData) (now : Int)
    (registry : List (String × Int)) : EventUpdatedOutcome :=
  let old_start_date := st.event_data.start_date
  let merged := st.event_data.updateWith updated_data
  let new_start_date := updated_data.start_date
  let rebuilt :
      (List (String × Int)) × List ActivityCall :=
    match new_start_date with
    | some ns =>
        if old_start_date ≠ some ns then
          let r1 := (delete_reminder_schedules st.event_id registry).1
          let subscription_reminders := get_subscription_reminders db st.event_id
          ((create_reminder_schedules st.event_id ns subscription_reminders
              now r1).1,
           [.deleteSchedules st.event_id, .getReminders st.event_id,
            .createSchedules st.event_id ns subscription_reminders])
        else (registry, [])
    | none => (registry, [])
  let title := "Event Updated: " ++ (updated_data.name.getD "Event")
  let body := "The event has been updated. Check the details for changes."
  let (report, sends) := broadcastActivity oracle c db settings notifyOk
    fallbackOk st.event_id title body "info" none
  { state := { st with event_data := merged },
    registry := rebuilt.1,
    broadcastTitle := title,
    broadcastLevel := "info",
    broadcastReport := report,
    sends := sends,
    trace := rebuilt.2 ++ [.broadcast st.event_id title body "info"] }

/-- Everything `participant_added` produces. -/
structure ParticipantAddedOutcome where
  registry : List (String × Int)
  schedules_created : List String
  trace : List ActivityCall
deriving Repr

/-- Signal handler `EventWorkflow.participant_added(participant_data)`
(event.py lines 192-230): when the snapshot has a `start_date`, fetch the
event's subscription offsets, filter them down to the singleton map
`{subscription_id: offsets.get(subscription_id, [])}` and create schedules
for just that map; no broadcast and no welcome notification is issued. -/
def EventWorkflow.participant_added (db : DB) (st : WorkflowState)
    (subscription_id user_id : Nat) (now : Int)
    (registry : List (String × Int)) : ParticipantAddedOutcome :=
  match st.event_data.start_date with
  | some start_date =>
      let subscription_reminders := get_subscription_reminders db st.event_id
      let new_sub_reminders :=
        [(subscription_id,
          ((subscription_reminders.lookup subscription_id).getD []))]
      let r := create_reminder_schedules st.event_id start_date
        new_sub_reminders now registry
      { registry := r.1, schedules_created := r.2,
        trace := [.getReminders st.event_id,
                  .createSchedules st.event_id start_date new_sub_reminders] }
  | none => { registry := registry, schedules_created := [], trace := [] }

/-- Details loaded by the `get_event_details` activity (the keys
`EventWorkflow.run` reads). -/
structure EventDetails where
  name : String
  start_date : Option Int
  end_date : Option Int
deriving DecidableEq, Repr

/-- `EventWorkflow.run(event_id, event_data)` (event.py lines 20-111),
flattened over its activity results: validate the event (absent event →
early `"... not found"` return with no cleanup), load details (absent →
early return), create the initial reminder schedules when `start_date` is
set (failures swallowed, lines 70-72), wait until cancellation or the end
instant, then delete every reminder schedule of the event and return the
terminal string.  The durable wait itself is real time and is summarised by
the `is_cancelled` flag the wait ended with. -/
def EventWorkflow.run (event_id : Nat) (eventExists : Bool)
    (details : Option EventDetails)
    (subscription_reminders : List (Nat × List Int)) (now : Int)
    (is_cancelled : Bool) (registry : List (String × Int)) :
    List (String × Int) × String :=
  if !eventExists then
    (registry, "Event " ++ toString event_id ++ " not found")
  else
    match details with
    | none =>
        (registry, "Could not load event " ++ toString event_id ++ " details")
    | some d =>
        let registry1 :=
          match d.start_date with
          | some sd =>
              (create_reminder_schedules event_id sd subscription_reminders
                now registry).1
          | none => registry
        let registry2 := (delete_reminder_schedules event_id registry1).1
        (registry2,
         if is_cancelled then "Event " ++ toString event_id ++ " cancelled"
         else "Event " ++ toString event_id ++ " completed")

/-! ## Subscription route (`src/api/routes/subscriptions.py`)

The route runs inside one session whose transaction is rolled back when an
`HTTPException` escapes (`src/db/session.py` lines 39-49), so an error
outcome leaves the store unchanged; the model reflects this by returning the
new store only on success.  The unsubscribe-token insert (random token) and
the best-effort `participant_added` workflow signal that follow the commit
are external to the claims settled here and are not modelled. -/

/-- `SubscribeRequest` (`src/api/schemas.py` lines 87-97). -/
structure SubscribeRequest where
  email : Option String
  name : Option String
  integration_ids : Option (List Nat)
  tags : Option (List String)
  reminder_offsets : Option (List Int)
deriving DecidableEq, Repr

/-- The `HTTPException`s the route raises. -/
inductive HttpError where
  | notFound (detail : String)
  | forbidden (detail : String)
  | badRequest (detail : String)
deriving DecidableEq, Repr

/-- The `data` payload of the route's success response. -/
structure SubscribeResponse where
  subscription_id : Nat
  event_id : Nat
  user_id : Nat
  selectors_data : List (Option Nat × Option String)
deriving DecidableEq, Repr

/-- Python truthiness of an optional list (`None` and `[]` are falsy). -/
def listTruthy {α : Type} : Option (List α) → Bool
  | none => false
  | some l => !l.isEmpty

/-- `request.email.split('@')[0]`. -/
def emailLocal (email : String) : String := (email.splitOn "@").headD ""

/-- `request.name or request.email.split('@')[0]` (empty string is falsy). -/
def nameOrDefault (name : Option String) (email : String) : String :=
  match name with
  | some n => if n.isEmpty then emailLocal email else n
  | none => emailLocal email

/-- Insert an integration row, applying the `lowercase_tag` before-insert
hook of `models.py` lines 135-139. -/
def DB.addIntegration (db : DB) (i : Integration) : DB :=
  { db with integrations := db.integrations ++ [{ i with tag := lowercaseTag i.tag }] }

/-- Insert a selector row, applying the `lowercase_selector_tag`
before-insert hook of `models.py` lines 197-201 (truthy tags only). -/
def DB.addSelector (db : DB) (s : SubscriptionSelector) : DB :=
  let s' := { s with tag := s.tag.map lowercaseTag }
  { db with selectors := db.selectors ++ [s'] }

/-- One pass of the `for int_id in (request.integration_ids or [])` loop
(subscriptions.py lines 74-80): add an integration-id selector row and its
response entry. -/
def addIntSelector (sub_id : Nat)
    (acc : DB × List (Option Nat × Option String)) (int_id : Nat) :
    DB × List (Option Nat × Option String) :=
  (acc.1.addSelector ⟨sub_id, some int_id, none⟩, acc.2 ++ [(some int_id, none)])

/-- One pass of the `for tag in (request.tags or [])` loop
(subscriptions.py lines 82-88): add a tag selector row and its response
entry. -/
def addTagSelector (sub_id : Nat)
    (acc : DB × List (Option Nat × Option String)) (tag : String) :
    DB × List (Option Nat × Option String) :=
  (acc.1.addSelector ⟨sub_id, none, some tag⟩, acc.2 ++ [(none, some tag)])

/-- One pass of the reminder-insert loop (subscriptions.py lines 101-106). -/
def addReminderRow (sub_id : Nat) (d : DB) (offset_seconds : Int) : DB :=
  { d with reminders := d.reminders ++ [⟨sub_id, offset_seconds⟩] }

/-- The reminder-preference block (subscriptions.py lines 99-107): insert a
row per requested offset when `reminder_offsets` is not `None`. -/
def addReminders (request : SubscribeRequest) (sub_id : Nat) (d : DB) : DB :=
  match request.reminder_offsets with
  | some offsets => offsets.foldl (addReminderRow sub_id) d
  | none => d

/-- The tail of `subscribe_to_event` after the user is resolved
(subscriptions.py lines 60-114): reject when a subscription for
`(event_id, user.id)` already exists (`400 "Already subscribed"`); create the
subscription row; create the selectors — explicit ones for an authenticated
request carrying `integration_ids` or `tags`, otherwise the single default
tag selector `"email"`; insert the requested reminder rows when
`reminder_offsets` is not `None`. -/
def subscribeRest (db : DB) (event_id : Nat) (request : SubscribeRequest)
    (user : User) (authenticated : Bool) (fresh_subscription_id : Nat) :
    Except HttpError (DB × SubscribeResponse) :=
  match db.subByEventAndUser event_id user.id with
  | some _existing => .error (.badRequest "Already subscribed")
  | none =>
      let sub : Subscription :=
        { id := fresh_subscription_id, event_id := event_id, user_id := user.id }
      let db1 := { db with subscriptions := db.subscriptions ++ [sub] }
      let withSelectors :
          DB × List (Option Nat × Option String) :=
        if authenticated &&
            (listTruthy request.integration_ids || listTruthy request.tags) then
          (request.tags.getD []).foldl (addTagSelector sub.id)
            ((request.integration_ids.getD []).foldl (addIntSelector sub.id)
              (db1, []))
        else
          (db1.addSelector ⟨sub.id, none, some "email"⟩, [(none, some "email")])
      let db3 := addReminders request sub.id withSelectors.1
      .ok (db3,
        { subscription_id := sub.id, event_id := event_id, user_id := user.id,
          selectors_data := withSelectors.2 })

/-- `subscribe_to_event(event_id, request, ...)` (subscriptions.py lines
13-135): load the event (404 when absent); reject anonymous access to a
private event (403); anonymous requests need an email (400) and get-or-create
the user by email — a newly created user additionally gets an active default
integration `name="Email"`, `tag="email"` whose encrypted delivery URL is
`mailto://{email}`; then the common tail `subscribeRest`.  The fresh ids
stand for the autoincrement keys the store would assign. -/
def subscribe_to_event (c : Cipher) (db : DB) (event_id : Nat)
    (request : SubscribeRequest) (current_user : Option User)
    (fresh_user_id fresh_integration_id fresh_subscription_id : Nat) :
    Except HttpError (DB × SubscribeResponse) :=
  match db.eventById event_id with
  | none => .error (.notFound "Event not found")
  | some event =>
      if !event.is_public && current_user.isNone then
        .error (.forbidden "Event is private")
      else
        match current_user with
        | none =>
            match request.email with
            | none => .error (.badRequest "Email required")
            | some email =>
                let resolved : DB × User × Bool :=
                  match db.userByEmail email with
                  | some u => (db, u, false)
                  | none =>
                      let u : User :=
                        { id := fresh_user_id, email := email,
                          name := nameOrDefault request.name email,
                          is_verified := false }
                      ({ db with users := db.users ++ [u] }, u, true)
                let db2 :=
                  if resolved.2.2 then
                    resolved.1.addIntegration
                      { id := fresh_integration_id,
                        user_id := resolved.2.1.id, name := "Email",
                        apprise_url_encrypted :=
                          c.enc ("mailto://" ++ resolved.2.1.email),
                        tag := "email", is_active := true }
                  else resolved.1
                subscribeRest db2 event_id request resolved.2.1 false
                  fresh_subscription_id
        | some user =>
            subscribeRest db event_id request user true fresh_subscription_id

/-- At most one `Subscription` row per `(event_id, user_id)` pair. -/
def uniquePairs (db : DB) : Prop :=
  db.subscriptions.Pairwise
    (fun a b => a.event_id ≠ b.event_id ∨ a.user_id ≠ b.user_id)

/-! ## Analysis helpers

Flattened views of the loops above, used to state and prove their
properties. -/

/-- The `(subscription_id, offset)` pairs of a subscription-reminders map, in
loop order. -/
def pairsOf (subscription_reminders : List (Nat × List Int)) :
    List (Nat × Int) :=
  subscription_reminders.flatMap (fun p => p.2.map (fun o => (p.1, o)))

/-- `create_reminder_schedules` as a single fold over the flattened pairs. -/
def runPairs (event_id : Nat) (start_date now : Int) (ps : List (Nat × Int))
    (acc : List (String × Int) × List String) :
    List (String × Int) × List String :=
  ps.foldl (fun acc q => createStep event_id start_date now q.1 acc q.2) acc

/-- The registry component of one `createStep`. -/
def regStep (event_id : Nat) (start_date now : Int)
    (r : List (String × Int)) (q : Nat × Int) : List (String × Int) :=
  if start_date - q.2 < now then r
  else if r.any (fun p => p.1 == scheduleId event_id q.1 q.2) then r
  else r ++ [(scheduleId event_id q.1 q.2, start_date - q.2)]

/-- The registry after processing a pair list. -/
def regRun (event_id : Nat) (start_date now : Int) (ps : List (Nat × Int))
    (r : List (String × Int)) : List (String × Int) :=
  ps.foldl (regStep event_id start_date now) r

/-- The `schedules_created` report: the id of every pair whose trigger is not
strictly in the past, in loop order — independent of the registry, because a
duplicate create still reports its id. -/
def canonicalCreated (event_id : Nat) (start_date now : Int)
    (ps : List (Nat × Int)) : List String :=
  ps.filterMap (fun q =>
    if start_date - q.2 < now then none else some (scheduleId event_id q.1 q.2))

/-- The send attempts contributed by one subscriber entry of the broadcast
loop. -/
def entrySends (db : DB) (settings : Settings)
    (notifyOk fallbackOk : Nat → Bool) (entry : Nat × List Endpoint) :
    List SendAttempt :=
  if entry.2.length > 0 then [.direct entry.1 entry.2 (notifyOk entry.1)]
  else
    match db.userById entry.1 with
    | some user =>
        [.fallbackEmail entry.1
          (NotificationBuilder.build_fallback_email settings user.email
            user.is_verified) (fallbackOk entry.1)]
    | none => []

/-! ## Concrete evaluation inputs -/

/-- A store with one public event and one subscription (id 1, user 7) that
carries no selectors. -/
def dbNoSel : DB :=
  ⟨[⟨7, "u7@example.com", "U Seven", false⟩], [⟨1, true⟩], [],
   [⟨1, 1, 7⟩], [], []⟩

/-- A store where subscription 1 of user 7 selects integration 9 explicitly,
but integration 9 is inactive, so the subscription resolves to no
endpoint. -/
def dbInactive : DB :=
  ⟨[⟨7, "u7@example.com", "U Seven", false⟩], [⟨1, true⟩],
   [⟨9, 7, "Gotify", "gotify://host/token", "urgent", false⟩],
   [⟨1, 1, 7⟩], [⟨1, some 9, none⟩], []⟩

/-- Service settings with only the Gmail fallback profile configured. -/
def gmailSettings : Settings :=
  ⟨"svc@gmail.com", "app-pw", "smtp.gmail.com", "", "", "smtp.protonmail.ch"⟩

/-- A store with one public event, one subscription (user 7), and a reminder
row of 300 seconds on that subscription. -/
def dbReminder : DB :=
  ⟨[⟨7, "u7@example.com", "U Seven", false⟩], [⟨1, true⟩], [],
   [⟨1, 1, 7⟩], [], [⟨1, 300⟩]⟩

/-- A subscribe request with no field supplied. -/
def emptyRequest : SubscribeRequest := ⟨none, none, none, none, none⟩

/-- An anonymous subscribe request supplying only an email. -/
def anonRequest : SubscribeRequest :=
  ⟨some "anon@example.com", none, none, none, none⟩

/-- An empty store holding only one public event. -/
def dbEventOnly : DB := ⟨[], [⟨1, true⟩], [], [], [], []⟩

/-- The report shape `{success: 0, failed: 1, errors: ["no channels"]}`. -/
def noChannelsReport : SubDispatchResult :=
  ⟨0, 1, none, none, some ["no channels"]⟩

/-- The user row created by a first-time anonymous subscribe
(subscriptions.py lines 41-44). -/
def anonUserRow (request : SubscribeRequest) (email : String)
    (fresh_user_id : Nat) : User :=
  { id := fresh_user_id, email := email,
    name := nameOrDefault request.name email, is_verified := false }

/-- The store after a first-time anonymous subscribe has created the user
and their default `Email` integration (subscriptions.py lines 41-56). -/
def anonDbWithIntegration (c : Cipher) (db : DB)
    (request : SubscribeRequest) (email : String)
    (fresh_user_id fresh_integration_id : Nat) : DB :=
  DB.addIntegration
    { db with users := db.users ++ [anonUserRow request email fresh_user_id] }
    { id := fresh_integration_id, user_id := fresh_user_id, name := "Email",
      apprise_url_encrypted := c.enc ("mailto://" ++ email),
      tag := "email", is_active := true }

/-- The store a successful first-time anonymous subscribe commits: new user,
default `Email` integration, subscription row, the single `"email"` tag
selector, and the requested reminder rows. -/
def anonSubscribeResult (c : Cipher) (db : DB) (event_id : Nat)
    (request : SubscribeRequest) (email : String)
    (fresh_user_id fresh_integration_id fresh_subscription_id : Nat) : DB :=
  addReminders request fresh_subscription_id
    (DB.addSelector
      { anonDbWithIntegration c db request email fresh_user_id
          fresh_integration_id with
        subscriptions := (anonDbWithIntegration c db request email
          fresh_user_id fresh_integration_id).subscriptions ++
          [⟨fresh_subscription_id, event_id, fresh_user_id⟩] }
      ⟨fresh_subscription_id, none, some "email"⟩)

/-! # Theorems -/

/-! ## Fold analysis of `create_reminder_schedules` -/

theorem createStep_eq (event_id : Nat) (start_date now : Int) (sub_id : Nat)
    (acc : List (String × Int) × List String) (o : Int) :
    createStep event_id start_date now sub_id acc o =
      (regStep event_id start_date now acc.1 (sub_id, o),
       acc.2 ++ (if start_date - o < now then []
                 else [scheduleId event_id sub_id o])) := by
  unfold createStep regStep
  by_cases h1 : start_date - o < now
  · simp [h1]
  · by_cases h2 :
        acc.1.any (fun p => p.1 == scheduleId event_id sub_id o) = true
    · simp [h1, h2]
    · simp [h1, h2]

theorem canonicalCreated_cons (event_id : Nat) (start_date now : Int)
    (q : Nat × Int) (ps : List (Nat × Int)) :
    canonicalCreated event_id start_date now (q :: ps) =
      (if start_date - q.2 < now then []
       else [scheduleId event_id q.1 q.2]) ++
        canonicalCreated event_id start_date now ps := by
  unfold canonicalCreated
  by_cases h : start_date - q.2 < now
  · simp [h]
  · simp [h]

theorem runPairs_eq (event_id : Nat) (start_date now : Int) :
    ∀ (ps : List (Nat × Int)) (r : List (String × Int)) (created : List String),
      runPairs event_id start_date now ps (r, created) =
        (regRun event_id start_date now ps r,
         created ++ canonicalCreated event_id start_date now ps) := by
  intro ps
  induction ps with
  | nil => intro r created; simp [runPairs, regRun, canonicalCreated]
  | cons q ps ih =>
      intro r created
      simp only [runPairs, List.foldl_cons] at *
      rw [createStep_eq, ih, canonicalCreated_cons]
      simp [regRun, List.append_assoc]

theorem foldl_nested_eq_pairs (event_id : Nat) (start_date now : Int) :
    ∀ (map : List (Nat × List Int)) (acc : List (String × Int) × List String),
      map.foldl (fun acc p => if p.2 = [] then acc
        else p.2.foldl (createStep event_id start_date now p.1) acc) acc =
      runPairs event_id start_date now (pairsOf map) acc := by
  intro map
  induction map with
  | nil => intro acc; rfl
  | cons p map ih =>
      intro acc
      simp only [List.foldl_cons]
      rw [ih]
      show runPairs event_id start_date now (pairsOf map) _ =
        runPairs event_id start_date now (pairsOf (p :: map)) acc
      have hsplit : pairsOf (p :: map) =
          p.2.map (fun o => (p.1, o)) ++ pairsOf map := by
        simp [pairsOf]
      rw [hsplit]
      unfold runPairs
      rw [List.foldl_append]
      by_cases hp : p.2 = []
      · simp [hp]
      · rw [if_neg hp, List.foldl_map]

theorem create_eq_runPairs (event_id : Nat) (start_date now : Int)
    (map : List (Nat × List Int)) (registry : List (String × Int)) :
    create_reminder_schedules event_id start_date map now registry =
      runPairs event_id start_date now (pairsOf map) (registry, []) := by
  unfold create_reminder_schedules
  by_cases h : map = []
  · subst h; simp [pairsOf, runPairs]
  · rw [if_neg h, foldl_nested_eq_pairs]

theorem regRun_mem_mono (event_id : Nat) (start_date now : Int) :
    ∀ (ps : List (Nat × Int)) (r : List (String × Int)) (x : String × Int),
      x ∈ r → x ∈ regRun event_id start_date now ps r := by
  intro ps
  induction ps with
  | nil => intro r x hx; simpa [regRun] using hx
  | cons q ps ih =>
      intro r x hx
      simp only [regRun, List.foldl_cons]
      apply ih
      unfold regStep
      by_cases h1 : start_date - q.2 < now
      · simpa [h1] using hx
      · by_cases h2 :
            r.any (fun p => p.1 == scheduleId event_id q.1 q.2) = true
        · simpa [h1, h2] using hx
        · simp only [h1, h2, if_neg, if_false]
          exact List.mem_append_left _ hx

theorem regRun_any_mono (event_id : Nat) (start_date now : Int)
    (ps : List (Nat × Int)) (r : List (String × Int))
    (f : String × Int → Bool) (h : r.any f = true) :
    (regRun event_id start_date now ps r).any f = true := by
  rcases List.any_eq_true.mp h with ⟨x, hx, hfx⟩
  exact List.any_eq_true.mpr
    ⟨x, regRun_mem_mono event_id start_date now ps r x hx, hfx⟩

theorem regRun_present (event_id : Nat) (start_date now : Int) :
    ∀ (ps : List (Nat × Int)) (r : List (String × Int)) (q : Nat × Int),
      q ∈ ps → ¬(start_date - q.2 < now) →
      (regRun event_id start_date now ps r).any
        (fun p => p.1 == scheduleId event_id q.1 q.2) = true := by
  intro ps
  induction ps with
  | nil => intro r q hq; cases hq
  | cons q0 ps ih =>
      intro r q hq htr
      simp only [regRun, List.foldl_cons]
      rcases List.mem_cons.mp hq with h | h
      · subst h
        apply regRun_any_mono
        unfold regStep
        rw [if_neg htr]
        by_cases h2 :
            r.any (fun p => p.1 == scheduleId event_id q.1 q.2) = true
        · simp [h2]
        · simp [h2, List.any_append]
      · exact ih (regStep event_id start_date now r q0) q h htr

theorem regRun_stable (event_id : Nat) (start_date now : Int) :
    ∀ (ps : List (Nat × Int)) (r : List (String × Int)),
      (∀ q ∈ ps, ¬(start_date - q.2 < now) →
        r.any (fun p => p.1 == scheduleId event_id q.1 q.2) = true) →
      regRun event_id start_date now ps r = r := by
  intro ps
  induction ps with
  | nil => intro r _; rfl
  | cons q ps ih =>
      intro r hall
      simp only [regRun, List.foldl_cons]
      have hstep : regStep event_id start_date now r q = r := by
        unfold regStep
        by_cases h1 : start_date - q.2 < now
        · simp [h1]
        · have h2 := hall q (List.mem_cons_self _ _) h1
          simp [h1, h2]
      rw [hstep]
      exact ih r (fun q' hq' => hall q' (List.mem_cons_of_mem _ hq'))

theorem regRun_mem_inv (event_id : Nat) (start_date now : Int) :
    ∀ (ps : List (Nat × Int)) (r : List (String × Int)) (x : String × Int),
      x ∈ regRun event_id start_date now ps r →
      x ∈ r ∨ ∃ q ∈ ps, ¬(start_date - q.2 < now) ∧
        x = (scheduleId event_id q.1 q.2, start_date - q.2) := by
  intro ps
  induction ps with
  | nil => intro r x hx; exact Or.inl (by simpa [regRun] using hx)
  | cons q ps ih =>
      intro r x hx
      simp only [regRun, List.foldl_cons] at hx
      rcases ih (regStep event_id start_date now r q) x hx with h | ⟨q', hq', h1, h2⟩
      · unfold regStep at h
        by_cases h1 : start_date - q.2 < now
        · rw [if_pos h1] at h; exact Or.inl h
        · rw [if_neg h1] at h
          by_cases h2 :
              r.any (fun p => p.1 == scheduleId event_id q.1 q.2) = true
          · rw [if_pos h2] at h; exact Or.inl h
          · rw [if_neg h2] at h
            rcases List.mem_append.mp h with h | h
            · exact Or.inl h
            · exact Or.inr ⟨q, List.mem_cons_self _ _, h1, by simpa using h⟩
      · exact Or.inr ⟨q', List.mem_cons_of_mem _ hq', h1, h2⟩

/-- C5 (counterexample): `create_reminder_schedules` skips a pair only when
its trigger is *strictly* before `now()` (schedules.py line 66 uses `<`); at
`start_date = 100`, `offset = 50`, `now = 50` the trigger `100 − 50 = 50`
satisfies `trigger ≤ now`, yet the schedule is created rather than skipped,
refuting the claim that a trigger exactly equal to `now()` is skipped. -/
theorem create_at_now_not_skipped :
    (100 : Int) - 50 ≤ 50 ∧
    create_reminder_schedules 1 100 [(1, [50])] 50 [] =
      ([("event-1-sub-1-reminder-50s", 50)], ["event-1-sub-1-reminder-50s"]) := by
  constructor
  · decide
  · rfl

/-- C5 (amended): for every `(subscription, offset)` pair the trigger instant
is `start_date − offset` seconds; the pair is skipped silently iff the
trigger is *strictly* before `now()` (a trigger exactly equal to `now()` is
scheduled, not skipped); otherwise a durable schedule is created at that
instant, a duplicate id being a no-op that is still reported. -/
theorem create_singleton_char (event_id sub_id : Nat)
    (offset_seconds start_date now : Int) (registry : List (String × Int)) :
    create_reminder_schedules event_id start_date [(sub_id, [offset_seconds])]
        now registry =
      if start_date - offset_seconds < now then (registry, [])
      else if registry.any
          (fun p => p.1 == scheduleId event_id sub_id offset_seconds) then
        (registry, [scheduleId event_id sub_id offset_seconds])
      else
        (registry ++
          [(scheduleId event_id sub_id offset_seconds,
            start_date - offset_seconds)],
         [scheduleId event_id sub_id offset_seconds]) := by
  rw [create_eq_runPairs]
  have hp : pairsOf [(sub_id, [offset_seconds])] = [(sub_id, offset_seconds)] := by
    simp [pairsOf]
  rw [hp, runPairs_eq]
  unfold regRun canonicalCreated regStep
  by_cases h1 : start_date - offset_seconds < now
  · simp [h1]
  · by_cases h2 : registry.any
        (fun p => p.1 == scheduleId event_id sub_id offset_seconds) = true
    · simp [h1, h2]
    · simp [h1, h2]

/-- C6: applying `create_reminder_schedules` a second time with the same
event, start date, subscription map and clock is observationally equivalent
to applying it once — the registry is unchanged and the very same
`schedules_created` list (the deterministic ids, duplicates included) is
reported again, since a duplicate create is a caught no-op whose id is still
appended. -/
theorem create_reminder_schedules_idempotent (event_id : Nat)
    (start_date : Int) (subscription_reminders : List (Nat × List Int))
    (now : Int) (registry : List (String × Int)) :
    create_reminder_schedules event_id start_date subscription_reminders now
      (create_reminder_schedules event_id start_date subscription_reminders
        now registry).1 =
    create_reminder_schedules event_id start_date subscription_reminders now
      registry := by
  simp only [create_eq_runPairs, runPairs_eq]
  have hstable :
      regRun event_id start_date now (pairsOf subscription_reminders)
        (regRun event_id start_date now (pairsOf subscription_reminders)
          registry) =
      regRun event_id start_date now (pairsOf subscription_reminders)
        registry := by
    apply regRun_stable
    intro q hq htr
    exact regRun_present event_id start_date now _ registry q hq htr
  simp [hstable]

/-- C4: whenever `EventWorkflow.run` reaches its terminal state — the event
validated and its details loaded, so the run ends in "cancelled" or
"completed" rather than in an early `not found` return — the final cleanup
(`delete_reminder_schedules`) leaves no schedule whose id starts with
`event-{event_id}-` in the registry. -/
theorem run_terminal_clears_schedules (event_id : Nat) (d : EventDetails)
    (subscription_reminders : List (Nat × List Int)) (now : Int)
    (is_cancelled : Bool) (registry : List (String × Int)) :
    ((EventWorkflow.run event_id true (some d) subscription_reminders now
        is_cancelled registry).2 =
          "Event " ++ toString event_id ++ " cancelled" ∨
     (EventWorkflow.run event_id true (some d) subscription_reminders now
        is_cancelled registry).2 =
          "Event " ++ toString event_id ++ " completed") ∧
    ∀ p ∈ (EventWorkflow.run event_id true (some d) subscription_reminders
        now is_cancelled registry).1,
      ¬ p.1.startsWith (eventMarker event_id) := by
  constructor
  · cases is_cancelled <;> simp [EventWorkflow.run]
  · intro p hp
    simp only [EventWorkflow.run, Bool.not_true, Bool.false_eq_true,
      if_false, delete_reminder_schedules] at hp
    have hmem := List.mem_filter.mp hp
    simpa using hmem.2

/-- C8: when the event snapshot has a `start_date`, the `participant_added`
handler issues exactly two activity calls — fetching the event's reminder
offsets and creating schedules for the singleton map keyed by the signalled
`subscription_id` with that subscription's stored offsets — so it performs
no broadcast and sends no welcome notification; the created schedules are
exactly the ids of that subscription's offsets whose trigger is not in the
past, and every registry entry it adds belongs to that subscription. -/
theorem participant_added_singleton (db : DB) (st : WorkflowState)
    (subscription_id user_id : Nat) (now start_date : Int)
    (registry : List (String × Int)) (offsets : List Int)
    (hstart : st.event_data.start_date = some start_date)
    (hoffs : offsets =
      ((get_subscription_reminders db st.event_id).lookup
        subscription_id).getD []) :
    (EventWorkflow.participant_added db st subscription_id user_id now
        registry).trace =
      [.getReminders st.event_id,
       .createSchedules st.event_id start_date [(subscription_id, offsets)]] ∧
    (∀ call ∈ (EventWorkflow.participant_added db st subscription_id user_id
        now registry).trace,
      ∀ e t b l, call ≠ ActivityCall.broadcast e t b l) ∧
    ((EventWorkflow.participant_added db st subscription_id user_id now
        registry).registry,
     (EventWorkflow.participant_added db st subscription_id user_id now
        registry).schedules_created) =
      create_reminder_schedules st.event_id start_date
        [(subscription_id, offsets)] now registry ∧
    (EventWorkflow.participant_added db st subscription_id user_id now
        registry).schedules_created =
      offsets.filterMap (fun o =>
        if start_date - o < now then none
        else some (scheduleId st.event_id subscription_id o)) ∧
    ∀ x ∈ (EventWorkflow.participant_added db st subscription_id user_id now
        registry).registry,
      x ∈ registry ∨ ∃ o ∈ offsets, ¬(start_date - o < now) ∧
        x = (scheduleId st.event_id subscription_id o, start_date - o) := by
  subst hoffs
  have hout : EventWorkflow.participant_added db st subscription_id user_id
      now registry =
      { registry := (create_reminder_schedules st.event_id start_date
          [(subscription_id,
            ((get_subscription_reminders db st.event_id).lookup
              subscription_id).getD [])] now registry).1,
        schedules_created := (create_reminder_schedules st.event_id start_date
          [(subscription_id,
            ((get_subscription_reminders db st.event_id).lookup
              subscription_id).getD [])] now registry).2,
        trace := [.getReminders st.event_id,
          .createSchedules st.event_id start_date
            [(subscription_id,
              ((get_subscription_reminders db st.event_id).lookup
                subscription_id).getD [])]] } := by
    simp only [EventWorkflow.participant_added, hstart]
  have hp : pairsOf [(subscription_id,
      ((get_subscription_reminders db st.event_id).lookup
        subscription_id).getD [])] =
      (((get_subscription_reminders db st.event_id).lookup
        subscription_id).getD []).map (fun o => (subscription_id, o)) := by
    simp [pairsOf]
  refine ⟨by rw [hout], ?_, ?_, ?_, ?_⟩
  · intro call hcall e t b l
    rw [hout] at hcall
    rcases List.mem_cons.mp hcall with h | h
    · subst h; intro hcontra; cases hcontra
    · rcases List.mem_cons.mp h with h | h
      · subst h; intro hcontra; cases hcontra
      · cases h
  · rw [hout]
  · rw [hout]
    show (create_reminder_schedules _ _ _ _ _).2 = _
    rw [create_eq_runPairs, runPairs_eq]
    show [] ++ canonicalCreated _ _ _ _ = _
    rw [List.nil_append, hp]
    unfold canonicalCreated
    rw [List.filterMap_map]
    rfl
  · intro x hx
    rw [hout] at hx
    rw [create_eq_runPairs, runPairs_eq] at hx
    dsimp only at hx
    rcases regRun_mem_inv st.event_id start_date now _ registry x hx
      with h | ⟨q, hq, h1, h2⟩
    · exact Or.inl h
    · rw [hp] at hq
      rcases List.mem_map.mp hq with ⟨o, ho, rfl⟩
      exact Or.inr ⟨o, ho, h1, h2⟩

/-- Witness for C8 at a concrete store: subscription 1 of event 1 has the
stored offset list `[300]`, and the handler's trace is exactly the reminder
fetch followed by the singleton-map schedule creation. -/
theorem participant_added_singleton_witness :
    (EventWorkflow.participant_added dbReminder
        ⟨1, ⟨none, some 1000, none⟩, false⟩ 1 7 0 []).trace =
      [.getReminders 1, .createSchedules 1 1000 [(1, [300])]] :=
  (participant_added_singleton dbReminder ⟨1, ⟨none, some 1000, none⟩, false⟩
    1 7 0 1000 [] [300] rfl (by decide)).1

/-! ## Personal dispatch and the missing builder method -/

theorem getattr_build_for_subscription :
    NotificationBuilder.getattr "build_for_subscription" =
      .error
        "type object NotificationBuilder has no attribute build_for_subscription" := by
  rfl

/-- Shared shape of `send_notification_to_subscription` whenever the
subscription row exists: the attribute lookup fails and the exception
handler reports the failure. -/
theorem sub_dispatch_attr_fail (db : DB) (subscription_id : Nat)
    (title body level : String) (s : Subscription)
    (hs : db.subById subscription_id = some s) :
    send_notification_to_subscription db subscription_id title body level =
      ({ success := 0, failed := 1, channels := none,
         error := some
           "type object NotificationBuilder has no attribute build_for_subscription",
         errors := none }, []) := by
  simp [send_notification_to_subscription, hs, getattr_build_for_subscription]

/-- C1: for every subscription id that exists in the store and every
title/body/level, `send_notification_to_subscription` returns a report with
`success = 0` and `failed = 1` and attempts no send: the call evaluates
`NotificationBuilder.build_for_subscription`, an attribute the class does
not define, and the resulting `AttributeError` is caught by the enclosing
handler and converted into a failure report instead of being raised. -/
theorem sub_dispatch_always_fails (db : DB) (subscription_id : Nat)
    (title body level : String)
    (hs : (db.subById subscription_id).isSome = true) :
    (send_notification_to_subscription db subscription_id title body
        level).1.success = 0 ∧
    (send_notification_to_subscription db subscription_id title body
        level).1.failed = 1 ∧
    (send_notification_to_subscription db subscription_id title body
        level).1.error = some
      "type object NotificationBuilder has no attribute build_for_subscription" ∧
    (send_notification_to_subscription db subscription_id title body
        level).2 = [] := by
  rcases Option.isSome_iff_exists.mp hs with ⟨s, hsome⟩
  rw [sub_dispatch_attr_fail db subscription_id title body level s hsome]
  exact ⟨rfl, rfl, rfl, rfl⟩

/-- Witness for C1 at a concrete store holding subscription 1. -/
theorem sub_dispatch_always_fails_witness :
    (send_notification_to_subscription dbNoSel 1 "Reminder" "body"
        "warning").1.success = 0 ∧
    (send_notification_to_subscription dbNoSel 1 "Reminder" "body"
        "warning").1.failed = 1 ∧
    (send_notification_to_subscription dbNoSel 1 "Reminder" "body"
        "warning").1.error = some
      "type object NotificationBuilder has no attribute build_for_subscription" ∧
    (send_notification_to_subscription dbNoSel 1 "Reminder" "body"
        "warning").2 = [] :=
  sub_dispatch_always_fails dbNoSel 1 "Reminder" "body" "warning" (by decide)

/-- C2 (counterexample): subscription 1 of `dbNoSel` exists and resolves to
no delivery endpoint, yet the call does not return
`{success: 0, failed: 1, errors: ["no channels"]}` — the attribute lookup of
the missing builder method fails first, and even the code's own
empty-channel branch would write the singular `error` key with a different
message. -/
theorem sub_dispatch_no_channel_report_cex :
    dbNoSel.subById 1 = some ⟨1, 1, 7⟩ ∧
    NotificationBuilder.resolveForSubscription idCipher dbNoSel ⟨1, 1, 7⟩
      none = [] ∧
    (send_notification_to_subscription dbNoSel 1 "t" "b" "info").1 ≠
      noChannelsReport := by
  refine ⟨by decide, by decide, ?_⟩
  decide

/-- C2 (amended): for every call whose subscription exists and resolves to an
empty set of delivery endpoints, the returned report is the failure report
`{success: 0, failed: 1, error: <AttributeError text>}` — produced by the
missing `build_for_subscription` attribute, not the claimed
`{errors: ["no channels"]}` shape — and no email-fallback send (indeed no
send at all) is attempted. -/
theorem sub_dispatch_empty_resolution (c : Cipher) (db : DB)
    (subscription_id : Nat) (title body level : String) (s : Subscription)
    (hs : db.subById subscription_id = some s)
    (hempty : NotificationBuilder.resolveForSubscription c db s none = []) :
    send_notification_to_subscription db subscription_id title body level =
      ({ success := 0, failed := 1, channels := none,
         error := some
           "type object NotificationBuilder has no attribute build_for_subscription",
         errors := none }, []) ∧
    (send_notification_to_subscription db subscription_id title body
        level).1 ≠ noChannelsReport := by
  refine ⟨sub_dispatch_attr_fail db subscription_id title body level s hs, ?_⟩
  rw [sub_dispatch_attr_fail db subscription_id title body level s hs]
  decide

/-- Witness for the amended C2 at the concrete store `dbNoSel`. -/
theorem sub_dispatch_empty_resolution_witness :
    send_notification_to_subscription dbNoSel 1 "t" "b" "info" =
      ({ success := 0, failed := 1, channels := none,
         error := some
           "type object NotificationBuilder has no attribute build_for_subscription",
         errors := none }, []) :=
  (sub_dispatch_empty_resolution idCipher dbNoSel 1 "t" "b" "info" ⟨1, 1, 7⟩
    (by decide) (by decide)).1

/-! ## Broadcast dispatch: fallback analysis -/

theorem keys_dictInsert {α : Type} (l : List (Nat × α)) (k : Nat) (v : α) :
    (NotificationBuilder.dictInsert l k v).map Prod.fst =
      if l.any (fun p => p.1 == k) then l.map Prod.fst
      else l.map Prod.fst ++ [k] := by
  unfold NotificationBuilder.dictInsert
  by_cases h : l.any (fun p => p.1 == k) = true
  · rw [if_pos h, if_pos h, List.map_map]
    refine List.map_congr_left ?_
    intro p _
    simp only [Function.comp]
    split
    · next hk => exact (beq_iff_eq.mp hk).symm
    · rfl
  · rw [if_neg h, if_neg h, List.map_append]
    rfl

theorem nodup_keys_dictInsert {α : Type} (l : List (Nat × α)) (k : Nat)
    (v : α) (h : (l.map Prod.fst).Nodup) :
    ((NotificationBuilder.dictInsert l k v).map Prod.fst).Nodup := by
  rw [keys_dictInsert]
  by_cases hk : l.any (fun p => p.1 == k) = true
  · rw [if_pos hk]; exact h
  · rw [if_neg hk]
    have hnotin : k ∉ l.map Prod.fst := by
      intro hmem
      rcases List.mem_map.mp hmem with ⟨p, hp, hfst⟩
      exact hk (List.any_eq_true.mpr ⟨p, hp, by simp [hfst]⟩)
    simp [List.nodup_append, h, hnotin]

theorem build_subscribers_keys_nodup_aux (c : Cipher) (db : DB)
    (selector_tags : Option (List String)) :
    ∀ (subs : List Subscription) (res : List (Nat × List Endpoint)),
      (res.map Prod.fst).Nodup →
      ((subs.foldl (fun res sub => NotificationBuilder.dictInsert res
          sub.user_id (NotificationBuilder.resolveForSubscription c db sub
            selector_tags)) res).map Prod.fst).Nodup := by
  intro subs
  induction subs with
  | nil => intro res h; exact h
  | cons sub subs ih =>
      intro res h
      simp only [List.foldl_cons]
      exact ih _ (nodup_keys_dictInsert _ _ _ h)

theorem build_subscribers_keys_nodup (c : Cipher) (db : DB) (event_id : Nat)
    (selector_tags : Option (List String)) :
    ((NotificationBuilder.build_for_event_subscribers c db event_id
      selector_tags).map Prod.fst).Nodup := by
  unfold NotificationBuilder.build_for_event_subscribers
  exact build_subscribers_keys_nodup_aux c db selector_tags _ [] (by simp)

theorem broadcastStep_sends (db : DB) (settings : Settings)
    (notifyOk fallbackOk : Nat → Bool) (acc : BroadcastAcc)
    (entry : Nat × List Endpoint) :
    (broadcastStep db settings notifyOk fallbackOk acc entry).sends =
      acc.sends ++ entrySends db settings notifyOk fallbackOk entry := by
  unfold broadcastStep entrySends
  by_cases h1 : entry.2.length > 0
  · by_cases h2 : notifyOk entry.1 = true <;> simp [h1, h2]
  · cases hu : db.userById entry.1 with
    | some user => by_cases h2 : fallbackOk entry.1 = true <;> simp [h1, hu, h2]
    | none => simp [h1, hu]

theorem broadcast_fold_sends (db : DB) (settings : Settings)
    (notifyOk fallbackOk : Nat → Bool) :
    ∀ (l : List (Nat × List Endpoint)) (acc : BroadcastAcc),
      (l.foldl (broadcastStep db settings notifyOk fallbackOk) acc).sends =
        acc.sends ++ l.flatMap (entrySends db settings notifyOk fallbackOk) := by
  intro l
  induction l with
  | nil => intro acc; simp
  | cons e l ih =>
      intro acc
      simp only [List.foldl_cons, List.flatMap_cons]
      rw [ih, broadcastStep_sends, List.append_assoc]

theorem fallbackCount_append (u : Nat) (a b : List SendAttempt) :
    fallbackCount u (a ++ b) = fallbackCount u a + fallbackCount u b := by
  simp [fallbackCount, List.filter_append]

theorem fallbackCount_entry (db : DB) (settings : Settings)
    (notifyOk fallbackOk : Nat → Bool) (u : Nat)
    (entry : Nat × List Endpoint) :
    fallbackCount u (entrySends db settings notifyOk fallbackOk entry) =
      if entry.1 = u ∧ entry.2.isEmpty = true ∧
          (db.userById entry.1).isSome = true then 1 else 0 := by
  unfold entrySends fallbackCount
  by_cases h1 : entry.2.length > 0
  · have hne : entry.2.isEmpty = false := by
      cases h : entry.2 with
      | nil => rw [h] at h1; simp at h1
      | cons a l => simp
    simp [h1, isFallbackFor, hne]
  · have hemp : entry.2.isEmpty = true := by
      cases h : entry.2 with
      | nil => simp
      | cons a l => rw [h] at h1; simp at h1
    cases hu : db.userById entry.1 with
    | some user =>
        by_cases hk : entry.1 = u
        · subst hk; simp [h1, hu, isFallbackFor, hemp]
        · simp [h1, hu, isFallbackFor, hk, hemp]
    | none => simp [h1, hu, hemp]

theorem fallbackCount_flatMap_notmem (db : DB) (settings : Settings)
    (notifyOk fallbackOk : Nat → Bool) (u : Nat) :
    ∀ (l : List (Nat × List Endpoint)), u ∉ l.map Prod.fst →
      fallbackCount u
        (l.flatMap (entrySends db settings notifyOk fallbackOk)) = 0 := by
  intro l
  induction l with
  | nil => intro _; rfl
  | cons e l ih =>
      intro hnot
      simp only [List.map_cons, List.mem_cons, not_or] at hnot
      obtain ⟨hne, hrest⟩ := hnot
      rw [List.flatMap_cons, fallbackCount_append, fallbackCount_entry,
        ih hrest]
      rw [if_neg]
      · rintro ⟨h, -, -⟩
        exact hne h.symm

theorem fallbackCount_flatMap_lookup (db : DB) (settings : Settings)
    (notifyOk fallbackOk : Nat → Bool) (u : Nat) :
    ∀ (l : List (Nat × List Endpoint)), (l.map Prod.fst).Nodup →
      fallbackCount u
          (l.flatMap (entrySends db settings notifyOk fallbackOk)) =
        (match l.lookup u with
         | some endpoints =>
             if endpoints.isEmpty = true ∧ (db.userById u).isSome = true
             then 1 else 0
         | none => 0) := by
  intro l
  induction l with
  | nil => intro _; rfl
  | cons e l ih =>
      intro hnd
      simp only [List.map_cons, List.nodup_cons] at hnd
      obtain ⟨hhead, htail⟩ := hnd
      rw [List.flatMap_cons, fallbackCount_append, fallbackCount_entry]
      by_cases hk : e.1 = u
      · subst hk
        have hlook : List.lookup e.1 (e :: l) = some e.2 := by
          cases e with
          | mk k v => simp [List.lookup]
        rw [hlook,
          fallbackCount_flatMap_notmem db settings notifyOk fallbackOk e.1 l
            hhead]
        simp
      · have hlook : List.lookup u (e :: l) = List.lookup u l := by
          cases e with
          | mk k v =>
              have hbeq : (u == k) = false := by
                simp only [beq_eq_false_iff_ne]
                exact fun h => hk h.symm
              simp [List.lookup, hbeq]
        rw [hlook, ih htail, if_neg]
        · simp
        · rintro ⟨h, -, -⟩
          exact hk h

/-- C3 (counterexample): subscription 1 of `dbInactive` carries an explicit
integration selector, that selector resolves to nothing (the integration is
inactive), and the broadcast nevertheless makes exactly one fallback-email
attempt for its user — refuting the claim that a subscription whose explicit
selectors resolve to nothing gets no fallback email attempt. -/
theorem broadcast_fallback_despite_selectors_cex :
    dbInactive.selectorsOf 1 ≠ [] ∧
    NotificationBuilder.resolveForSubscription idCipher dbInactive ⟨1, 1, 7⟩
      none = [] ∧
    fallbackCount 7 (send_notification_to_subscribers idCipher dbInactive
      gmailSettings (fun _ => true) (fun _ => true) 1 "t" "b" "info"
      none).2 = 1 := by
  refine ⟨by decide, by decide, by decide⟩

/-- C3 (amended): in a broadcast, `send_notification_to_subscribers` makes an
email-fallback attempt for a subscriber exactly when that subscriber's
resolved endpoint set is empty and the user row exists — regardless of
whether the user has explicit selectors — and it makes at most one fallback
attempt per subscriber. -/
theorem broadcast_fallback_exactly_when_empty (c : Cipher) (db : DB)
    (settings : Settings) (notifyOk fallbackOk : Nat → Bool) (event_id : Nat)
    (title body level : String) (selector_tags : Option (List String))
    (u : Nat) :
    fallbackCount u (send_notification_to_subscribers c db settings notifyOk
        fallbackOk event_id title body level selector_tags).2 =
      (match (NotificationBuilder.build_for_event_subscribers c db event_id
          selector_tags).lookup u with
       | some endpoints =>
           if endpoints.isEmpty = true ∧ (db.userById u).isSome = true
           then 1 else 0
       | none => 0) ∧
    fallbackCount u (send_notification_to_subscribers c db settings notifyOk
        fallbackOk event_id title body level selector_tags).2 ≤ 1 := by
  have hmain :
      fallbackCount u (send_notification_to_subscribers c db settings
          notifyOk fallbackOk event_id title body level selector_tags).2 =
        (match (NotificationBuilder.build_for_event_subscribers c db event_id
            selector_tags).lookup u with
         | some endpoints =>
             if endpoints.isEmpty = true ∧ (db.userById u).isSome = true
             then 1 else 0
         | none => 0) := by
    unfold send_notification_to_subscribers
    dsimp only
    rw [broadcast_fold_sends, List.nil_append]
    exact fallbackCount_flatMap_lookup db settings notifyOk fallbackOk u _
      (build_subscribers_keys_nodup c db event_id selector_tags)
  refine ⟨hmain, ?_⟩
  rw [hmain]
  cases List.lookup u (NotificationBuilder.build_for_event_subscribers c db
      event_id selector_tags) with
  | none => simp
  | some endpoints =>
      split
      · split <;> decide
      · decide

/-! ## `event_updated`: broadcast failure is non-fatal -/

/-- C7: the `event_updated` handler always completes with the broadcast
issued as `"Event Updated: {name}"` at level `info`; a failure inside the
broadcast (any exception `e` raised in the activity body, modelled by the
oracle) is recorded in the returned report and changes nothing else — the
merged snapshot, the rebuilt schedule registry and the activity trace are
identical to those of a successful run, so the failure does not propagate
out of the handler. -/
theorem event_updated_broadcast_nonfatal (c : Cipher) (db : DB)
    (settings : Settings) (notifyOk fallbackOk : Nat → Bool)
    (st : WorkflowState) (updated_data : EventData) (now : Int)
    (registry : List (String × Int)) (e : String) :
    (EventWorkflow.event_updated c db settings notifyOk fallbackOk (some e)
        st updated_data now registry).state =
      (EventWorkflow.event_updated c db settings notifyOk fallbackOk none
        st updated_data now registry).state ∧
    (EventWorkflow.event_updated c db settings notifyOk fallbackOk (some e)
        st updated_data now registry).registry =
      (EventWorkflow.event_updated c db settings notifyOk fallbackOk none
        st updated_data now registry).registry ∧
    (EventWorkflow.event_updated c db settings notifyOk fallbackOk (some e)
        st updated_data now registry).trace =
      (EventWorkflow.event_updated c db settings notifyOk fallbackOk none
        st updated_data now registry).trace ∧
    (EventWorkflow.event_updated c db settings notifyOk fallbackOk (some e)
        st updated_data now registry).state.event_data =
      st.event_data.updateWith updated_data ∧
    (EventWorkflow.event_updated c db settings notifyOk fallbackOk (some e)
        st updated_data now registry).broadcastTitle =
      "Event Updated: " ++ (updated_data.name.getD "Event") ∧
    (EventWorkflow.event_updated c db settings notifyOk fallbackOk (some e)
        st updated_data now registry).broadcastLevel = "info" ∧
    (EventWorkflow.event_updated c db settings notifyOk fallbackOk (some e)
        st updated_data now registry).broadcastReport.error = some e := by
  refine ⟨rfl, rfl, rfl, rfl, rfl, rfl, ?_⟩
  simp [EventWorkflow.event_updated, broadcastActivity]

/-! ## Subscription route: duplicates and uniqueness -/

theorem foldl_addReminderRow_eq (sub_id : Nat) :
    ∀ (offsets : List Int) (d : DB),
      offsets.foldl (addReminderRow sub_id) d =
        { d with reminders := d.reminders ++
            offsets.map (fun o => ⟨sub_id, o⟩) } := by
  intro offsets
  induction offsets with
  | nil => intro d; simp
  | cons o offsets ih =>
      intro d
      simp only [List.foldl_cons]
      rw [ih]
      simp [addReminderRow]

theorem addReminders_eq (request : SubscribeRequest) (sub_id : Nat) (d : DB) :
    addReminders request sub_id d =
      { d with reminders := d.reminders ++
          ((request.reminder_offsets.getD []).map (fun o => ⟨sub_id, o⟩)) } := by
  unfold addReminders
  cases request.reminder_offsets with
  | none => simp
  | some offsets => simp [foldl_addReminderRow_eq]

theorem foldl_addIntSelector_subscriptions (sub_id : Nat) :
    ∀ (l : List Nat) (acc : DB × List (Option Nat × Option String)),
      ((l.foldl (addIntSelector sub_id) acc).1).subscriptions =
        acc.1.subscriptions := by
  intro l
  induction l with
  | nil => intro acc; rfl
  | cons a l ih =>
      intro acc
      simp only [List.foldl_cons]
      rw [ih]
      rfl

theorem foldl_addTagSelector_subscriptions (sub_id : Nat) :
    ∀ (l : List String) (acc : DB × List (Option Nat × Option String)),
      ((l.foldl (addTagSelector sub_id) acc).1).subscriptions =
        acc.1.subscriptions := by
  intro l
  induction l with
  | nil => intro acc; rfl
  | cons a l ih =>
      intro acc
      simp only [List.foldl_cons]
      rw [ih]
      rfl

/-- A successful `subscribeRest` call presupposes that no `(event, user)`
subscription existed, and appends exactly one subscription row with that
pair. -/
theorem subscribeRest_ok_subscriptions (db : DB) (event_id : Nat)
    (request : SubscribeRequest) (user : User) (authenticated : Bool)
    (fresh_subscription_id : Nat) (db' : DB) (resp : SubscribeResponse)
    (h : subscribeRest db event_id request user authenticated
      fresh_subscription_id = .ok (db', resp)) :
    db.subByEventAndUser event_id user.id = none ∧
    db'.subscriptions = db.subscriptions ++
      [⟨fresh_subscription_id, event_id, user.id⟩] := by
  unfold subscribeRest at h
  cases hfind : db.subByEventAndUser event_id user.id with
  | some s => rw [hfind] at h; cases h
  | none =>
      rw [hfind] at h
      refine ⟨rfl, ?_⟩
      simp only [Except.ok.injEq, Prod.mk.injEq] at h
      obtain ⟨hdb, -⟩ := h
      rw [← hdb, addReminders_eq]
      by_cases hauth : (authenticated &&
          (listTruthy request.integration_ids ||
            listTruthy request.tags)) = true
      · simp only [hauth, if_true]
        rw [foldl_addTagSelector_subscriptions,
          foldl_addIntSelector_subscriptions]
      · simp only [hauth, if_false]
        rfl

theorem subscribeRest_preserves_unique (db : DB) (event_id : Nat)
    (request : SubscribeRequest) (user : User) (authenticated : Bool)
    (fresh_subscription_id : Nat) (db' : DB) (resp : SubscribeResponse)
    (hu : uniquePairs db)
    (h : subscribeRest db event_id request user authenticated
      fresh_subscription_id = .ok (db', resp)) :
    uniquePairs db' := by
  obtain ⟨hfind, hsubs⟩ := subscribeRest_ok_subscriptions db event_id request
    user authenticated fresh_subscription_id db' resp h
  unfold uniquePairs at *
  rw [hsubs, List.pairwise_append]
  refine ⟨hu, List.pairwise_singleton _ _, ?_⟩
  intro a ha b hb
  simp only [List.mem_singleton] at hb
  subst hb
  have hnp := List.find?_eq_none.mp hfind a ha
  by_cases he : a.event_id = event_id
  · right
    intro huid
    exact hnp (by simp [he, huid])
  · left
    exact he

/-- C9: a second subscribe by a user who already holds a subscription to the
event fails with the route's conflict outcome (`400 "Already subscribed"`)
before any row is written — in both the authenticated and the anonymous
invocation — and every successful subscribe preserves the invariant that at
most one `Subscription` row per `(event_id, user_id)` exists (so no
selectors, reminders or extra subscription rows can result from the
conflicting call, whose transaction is rolled back). -/
theorem subscribe_duplicate_conflict (c : Cipher) (db : DB) (event_id : Nat)
    (request : SubscribeRequest)
    (fresh_user_id fresh_integration_id fresh_subscription_id : Nat) :
    (∀ ev user s, db.eventById event_id = some ev →
        db.subByEventAndUser event_id user.id = some s →
        subscribe_to_event c db event_id request (some user) fresh_user_id
          fresh_integration_id fresh_subscription_id =
          .error (.badRequest "Already subscribed")) ∧
    (∀ ev email user s, db.eventById event_id = some ev →
        ev.is_public = true → request.email = some email →
        db.userByEmail email = some user →
        db.subByEventAndUser event_id user.id = some s →
        subscribe_to_event c db event_id request none fresh_user_id
          fresh_integration_id fresh_subscription_id =
          .error (.badRequest "Already subscribed")) ∧
    (∀ current_user db' resp, uniquePairs db →
        subscribe_to_event c db event_id request current_user fresh_user_id
          fresh_integration_id fresh_subscription_id = .ok (db', resp) →
        uniquePairs db') := by
  refine ⟨?_, ?_, ?_⟩
  · intro ev user s hev hdup
    simp [subscribe_to_event, subscribeRest, hev, hdup]
  · intro ev email user s hev hpub hemail huser hdup
    simp [subscribe_to_event, subscribeRest, hev, hpub, hemail, huser, hdup]
  · intro current_user db' resp hu hok
    unfold subscribe_to_event at hok
    cases hev : db.eventById event_id with
    | none => rw [hev] at hok; cases hok
    | some ev =>
        rw [hev] at hok
        dsimp only at hok
        by_cases hpriv : (!ev.is_public && current_user.isNone) = true
        · rw [if_pos hpriv] at hok; cases hok
        · rw [if_neg hpriv] at hok
          cases current_user with
          | some user =>
              exact subscribeRest_preserves_unique db event_id request user
                true fresh_subscription_id db' resp hu hok
          | none =>
              dsimp only at hok
              cases hemail : request.email with
              | none => rw [hemail] at hok; cases hok
              | some email =>
                  rw [hemail] at hok
                  dsimp only at hok
                  cases huser : db.userByEmail email with
                  | some u0 =>
                      rw [huser] at hok
                      refine subscribeRest_preserves_unique _ event_id
                        request _ false fresh_subscription_id db' resp ?_ hok
                      exact hu
                  | none =>
                      rw [huser] at hok
                      refine subscribeRest_preserves_unique _ event_id
                        request _ false fresh_subscription_id db' resp ?_ hok
                      exact hu

/-- Witness for C9: in `dbNoSel`, user 7 already subscribes to event 1, and
subscribing again is rejected with the conflict outcome. -/
theorem subscribe_duplicate_conflict_witness :
    subscribe_to_event idCipher dbNoSel 1 emptyRequest
        (some ⟨7, "u7@example.com", "U Seven", false⟩) 100 101 102 =
      .error (.badRequest "Already subscribed") :=
  (subscribe_duplicate_conflict idCipher dbNoSel 1 emptyRequest
    100 101 102).1 ⟨1, true⟩ ⟨7, "u7@example.com", "U Seven", false⟩
    ⟨1, 1, 7⟩ rfl rfl

/-! ## Anonymous first-time subscribe -/

theorem lowercaseTag_email : lowercaseTag "email" = "email" := by decide

/-- A successful anonymous-path `subscribeRest` call, written out: the
subscription row, the single default `"email"` tag selector and the
requested reminder rows are inserted. -/
theorem subscribeRest_anon_ok (db : DB) (event_id : Nat)
    (request : SubscribeRequest) (user : User) (fresh_subscription_id : Nat)
    (hfind : db.subByEventAndUser event_id user.id = none) :
    subscribeRest db event_id request user false fresh_subscription_id =
      .ok (addReminders request fresh_subscription_id
            (DB.addSelector
              { db with subscriptions := db.subscriptions ++
                  [⟨fresh_subscription_id, event_id, user.id⟩] }
              ⟨fresh_subscription_id, none, some "email"⟩),
           { subscription_id := fresh_subscription_id, event_id := event_id,
             user_id := user.id,
             selectors_data := [(none, some "email")] }) := by
  unfold subscribeRest
  rw [hfind]
  rfl

/-- The anonymous route with a fresh email reduces to `subscribeRest` on the
store extended with the new user and their default `Email` integration. -/
theorem subscribe_anon_new_user_eq (c : Cipher) (db : DB) (event_id : Nat)
    (request : SubscribeRequest) (email : String) (ev : Event)
    (fresh_user_id fresh_integration_id fresh_subscription_id : Nat)
    (hev : db.eventById event_id = some ev)
    (hpub : ev.is_public = true)
    (hemail : request.email = some email)
    (hnew : db.userByEmail email = none) :
    subscribe_to_event c db event_id request none fresh_user_id
        fresh_integration_id fresh_subscription_id =
      subscribeRest
        (DB.addIntegration
          { db with users := db.users ++
              [{ id := fresh_user_id, email := email,
                 name := nameOrDefault request.name email,
                 is_verified := false }] }
          { id := fresh_integration_id, user_id := fresh_user_id,
            name := "Email",
            apprise_url_encrypted := c.enc ("mailto://" ++ email),
            tag := "email", is_active := true })
        event_id request
        { id := fresh_user_id, email := email,
          name := nameOrDefault request.name email, is_verified := false }
        false fresh_subscription_id := by
  unfold subscribe_to_event
  simp [hev, hpub, hemail, hnew]

/-- C10: a first-time anonymous subscribe creates for the new user an active
integration named `"Email"` with tag `"email"` whose encrypted delivery URL
decrypts to `mailto://{email}`, gives the new subscription exactly one
selector — the tag selector `"email"` — and consequently the subscription
resolves to the single real `mailto://{email}` endpoint rather than to no
integration. -/
theorem anonymous_first_subscribe (c : Cipher) (db : DB) (event_id : Nat)
    (request : SubscribeRequest) (email : String) (ev : Event)
    (fresh_user_id fresh_integration_id fresh_subscription_id : Nat)
    (hev : db.eventById event_id = some ev)
    (hpub : ev.is_public = true)
    (hemail : request.email = some email)
    (hnew : db.userByEmail email = none)
    (hfreshsub : ∀ s ∈ db.subscriptions, s.user_id ≠ fresh_user_id)
    (hfreshint : ∀ i ∈ db.integrations, i.user_id ≠ fresh_user_id)
    (hfreshsel : ∀ s ∈ db.selectors,
      s.subscription_id ≠ fresh_subscription_id) :
    ∃ db' resp,
      subscribe_to_event c db event_id request none fresh_user_id
          fresh_integration_id fresh_subscription_id = .ok (db', resp) ∧
      resp.user_id = fresh_user_id ∧
      resp.subscription_id = fresh_subscription_id ∧
      resp.selectors_data = [(none, some "email")] ∧
      db'.integrations = db.integrations ++
        [{ id := fresh_integration_id, user_id := fresh_user_id,
           name := "Email",
           apprise_url_encrypted := c.enc ("mailto://" ++ email),
           tag := "email", is_active := true }] ∧
      c.dec (c.enc ("mailto://" ++ email)) = "mailto://" ++ email ∧
      db'.selectorsOf fresh_subscription_id =
        [⟨fresh_subscription_id, none, some "email"⟩] ∧
      NotificationBuilder.resolveForSubscription c db'
          ⟨fresh_subscription_id, event_id, fresh_user_id⟩ none =
        [⟨"mailto://" ++ email, some "email"⟩] := by
  have hfind2 : (anonDbWithIntegration c db request email fresh_user_id
      fresh_integration_id).subByEventAndUser event_id fresh_user_id =
      none := by
    unfold DB.subByEventAndUser anonDbWithIntegration DB.addIntegration
    dsimp only
    rw [List.find?_eq_none]
    intro s hs
    simp only [Bool.and_eq_true, beq_iff_eq, not_and]
    intro _
    exact hfreshsub s hs
  have hmain : subscribe_to_event c db event_id request none fresh_user_id
      fresh_integration_id fresh_subscription_id =
      .ok (anonSubscribeResult c db event_id request email fresh_user_id
            fresh_integration_id fresh_subscription_id,
           { subscription_id := fresh_subscription_id, event_id := event_id,
             user_id := fresh_user_id,
             selectors_data := [(none, some "email")] }) := by
    rw [subscribe_anon_new_user_eq c db event_id request email ev
      fresh_user_id fresh_integration_id fresh_subscription_id hev hpub
      hemail hnew]
    exact subscribeRest_anon_ok
      (anonDbWithIntegration c db request email fresh_user_id
        fresh_integration_id)
      event_id request (anonUserRow request email fresh_user_id)
      fresh_subscription_id hfind2
  have hintegrations : (anonSubscribeResult c db event_id request email
      fresh_user_id fresh_integration_id fresh_subscription_id).integrations =
      db.integrations ++
        [{ id := fresh_integration_id, user_id := fresh_user_id,
           name := "Email",
           apprise_url_encrypted := c.enc ("mailto://" ++ email),
           tag := "email", is_active := true }] := by
    unfold anonSubscribeResult
    rw [addReminders_eq]
    unfold anonDbWithIntegration DB.addSelector DB.addIntegration
    simp [lowercaseTag_email]
  have hselOf : (anonSubscribeResult c db event_id request email
      fresh_user_id fresh_integration_id
      fresh_subscription_id).selectorsOf fresh_subscription_id =
      [⟨fresh_subscription_id, none, some "email"⟩] := by
    unfold anonSubscribeResult
    rw [addReminders_eq]
    unfold DB.selectorsOf DB.addSelector anonDbWithIntegration
      DB.addIntegration
    dsimp only
    rw [List.filter_append]
    have h1 : db.selectors.filter
        (fun s => s.subscription_id == fresh_subscription_id) = [] := by
      rw [List.filter_eq_nil_iff]
      intro s hs
      simp only [beq_iff_eq]
      exact hfreshsel s hs
    rw [h1]
    simp [lowercaseTag_email]
  have hintByUser : (anonSubscribeResult c db event_id request email
      fresh_user_id fresh_integration_id
      fresh_subscription_id).intByUserActive fresh_user_id =
      [{ id := fresh_integration_id, user_id := fresh_user_id,
         name := "Email",
         apprise_url_encrypted := c.enc ("mailto://" ++ email),
         tag := "email", is_active := true }] := by
    unfold DB.intByUserActive
    rw [hintegrations, List.filter_append]
    have h2 : db.integrations.filter
        (fun i => i.user_id == fresh_user_id && i.is_active) = [] := by
      rw [List.filter_eq_nil_iff]
      intro i hi
      simp only [Bool.and_eq_true, beq_iff_eq, not_and]
      intro h _
      exact hfreshint i hi h
    rw [h2]
    simp
  have hresolve : NotificationBuilder.resolveForSubscription c
      (anonSubscribeResult c db event_id request email fresh_user_id
        fresh_integration_id fresh_subscription_id)
      ⟨fresh_subscription_id, event_id, fresh_user_id⟩ none =
      [⟨"mailto://" ++ email, some "email"⟩] := by
    unfold NotificationBuilder.resolveForSubscription
    dsimp only
    rw [hselOf, hintByUser]
    simp [c.roundtrip]
  exact ⟨anonSubscribeResult c db event_id request email fresh_user_id
      fresh_integration_id fresh_subscription_id,
    { subscription_id := fresh_subscription_id, event_id := event_id,
      user_id := fresh_user_id, selectors_data := [(none, some "email")] },
    hmain, rfl, rfl, rfl, hintegrations, c.roundtrip _, hselOf, hresolve⟩

/-- Witness for C10: the anonymous subscribe of `anon@example.com` to the
empty store's public event 1. -/
theorem anonymous_first_subscribe_witness :
    ∃ db' resp,
      subscribe_to_event idCipher dbEventOnly 1 anonRequest none 7 9 1 =
        .ok (db', resp) ∧
      resp.user_id = 7 ∧
      resp.subscription_id = 1 ∧
      resp.selectors_data = [(none, some "email")] ∧
      db'.integrations = dbEventOnly.integrations ++
        [{ id := 9, user_id := 7, name := "Email",
           apprise_url_encrypted :=
             idCipher.enc ("mailto://" ++ "anon@example.com"),
           tag := "email", is_active := true }] ∧
      idCipher.dec (idCipher.enc ("mailto://" ++ "anon@example.com")) =
        "mailto://" ++ "anon@example.com" ∧
      db'.selectorsOf 1 = [⟨1, none, some "email"⟩] ∧
      NotificationBuilder.resolveForSubscription idCipher db' ⟨1, 1, 7⟩
          none =
        [⟨"mailto://" ++ "anon@example.com", some "email"⟩] :=
  anonymous_first_subscribe idCipher dbEventOnly 1 anonRequest
    "anon@example.com" ⟨1, true⟩ 7 9 1 rfl rfl rfl rfl
    (by intro s hs; cases hs) (by intro i hi; cases hi)
    (by intro s hs; cases hs)

end Soonish
